import Mathlib

/-!
Shallow embedding of the GRIB edition-1 decoder (packages `grib1` and
`hexademicalfloatingpoint` of reddaly/gogrib2) together with theorems
settling the specification claims.

Conventions of the embedding:
* Go byte slices are `List Nat` (each entry a byte value).
* Machine integers are `Nat`/`Int`; 32-bit wrap-around is applied explicitly
  (`i32`) where the Go code performs `int32` arithmetic that can overflow.
* Fallible parsing returns `Except PErr`.  Go `error` returns are `.err s`
  (strings abbreviated; the Go code's offset/section annotations added by
  `fmt.Errorf` wrapping are dropped — only error identity matters here).
  A Go runtime panic from out-of-range indexing or slicing is `.oobPanic`.
-/

deriving instance DecidableEq for Except

namespace grib1

/-- Outcome of a failed parse: a returned `error` value, or a runtime panic
caused by an out-of-range index or slice. -/
inductive PErr where
  | err (msg : String) : PErr
  | oobPanic : PErr
deriving DecidableEq

/-- Reading `data[i]` in Go: panics (out-of-range) when `i ≥ len(data)`. -/
def byteAt (data : List Nat) (i : Nat) : Except PErr Nat :=
  match data.get? i with
  | some b => .ok b
  | none => .error .oobPanic

/-- `binary.BigEndian.Uint32([]byte{byte0, byte1, byte2, byte3})`. -/
def parse4ByteUint (byte0 byte1 byte2 byte3 : Nat) : Nat :=
  byte0 * 16777216 + byte1 * 65536 + byte2 * 256 + byte3

def parse3ByteUint (byte0 byte1 byte2 : Nat) : Nat :=
  parse4ByteUint 0 byte0 byte1 byte2

def parse2ByteUint (byte0 byte1 : Nat) : Nat :=
  parse3ByteUint 0 byte0 byte1

/-- Sign-magnitude 2-byte decode: top bit of the leading byte is the sign,
remaining 15 bits the magnitude. -/
def parse2ByteInt (byte0 byte1 : Nat) : Int :=
  let unsigned := parse2ByteUint byte0 byte1
  let absValue := unsigned &&& 0b0111111111111111
  let negative := unsigned &&& (1 <<< 15) ≠ 0
  if negative then -1 * (absValue : Int) else (absValue : Int)

/-- Sign-magnitude 3-byte decode: top bit of the leading byte is the sign,
remaining 23 bits the magnitude. -/
def parse3ByteInt (byte0 byte1 byte2 : Nat) : Int :=
  let unsigned := parse3ByteUint byte0 byte1 byte2
  let absValue := unsigned &&& 0b011111111111111111111111
  let negative := unsigned &&& (1 <<< 23) ≠ 0
  if negative then -1 * (absValue : Int) else (absValue : Int)

/-- Go type `real` is `int64`; `parse4ByteReal` reinterprets the big-endian
32-bit unsigned value as a (nonnegative) integer. -/
def parse4ByteReal (byte0 byte1 byte2 byte3 : Nat) : Int :=
  (parse4ByteUint byte0 byte1 byte2 byte3 : Int)

/-- Wrap-around of Go `int32` arithmetic. -/
def i32 (x : Int) : Int := (x + 2 ^ 31) % 2 ^ 32 - 2 ^ 31

/-- Encoder for 2-byte sign-magnitude fields.  Modelled from the spec: the
source has no encoder, only the decoder `parse2ByteInt`; the spec describes
the encoding as "the most significant bit of the leftmost byte is a sign flag
(1 = negative), the remaining bits form the magnitude". -/
def encodeSignMag2 (V : Int) : Nat × Nat :=
  let s : Nat := if V < 0 then 1 else 0
  let m := V.natAbs
  (s * 128 + m / 256, m % 256)

/-- Encoder for 3-byte sign-magnitude fields.  Modelled from the spec: the
source has no encoder, only the decoder `parse3ByteInt`; same sign-magnitude
layout with a 23-bit magnitude. -/
def encodeSignMag3 (V : Int) : Nat × Nat × Nat :=
  let s : Nat := if V < 0 then 1 else 0
  let m := V.natAbs
  (s * 128 + m / 65536, m / 256 % 256, m % 256)

/-- Section 0 — Indicator: magic literal "GRIB", a 3-byte big-endian total
message length, and the edition byte (must be 1). -/
structure indicatorSection where
  messageLength : Nat
deriving DecidableEq

def indicatorSection.parseBytes (data : List Nat) :
    Except PErr (indicatorSection × Nat) :=
  if data.length < 8 then
    .error (.err "invalid GRIB file < 8 bytes long")
  else if data.take 4 ≠ [71, 82, 73, 66] then -- "GRIB"
    .error (.err "first four bytes are not GRIB")
  else if data.getD 7 0 ≠ 1 then
    .error (.err "expected GRIB edition 1")
  else
    let messageLength := parse3ByteUint (data.getD 4 0) (data.getD 5 0) (data.getD 6 0)
    if messageLength > data.length then
      .error (.err "message length exceeds bytes supplied")
    else
      .ok (⟨messageLength⟩, 8)

/-- Section 1 — Product Definition. -/
structure ProductDefinition where
  section1Length : Nat
  table2Version : Nat
  center : Nat
  generatingProcessIdentifier : Nat
  gridDefinition : Nat
  section1Flags : Nat
  indicatorOfParameter : Nat
  indicatorOfTypeOfLevel : Nat
  heightPressureEtcOfLevels : Nat
  yearOfCentury : Nat
  month : Nat
  day : Nat
  hour : Nat
  minute : Nat
  unitOfTimeRange : Nat
  p1 : Nat
  p2 : Nat
  timeRangeIndicator : Nat
  numberIncludedInAverage : Nat
  numberMissingFromAveragesOrAccumulations : Nat
  centuryOfReferenceTimeOfData : Nat
  subCentre : Nat
  decimalScaleFactor : Int
deriving DecidableEq

/-- Code table 1 flag bits: `section2Included = 1 << 7`,
`section3Included = 1 << 6`. -/
def ProductDefinition.gridDescriptionSectionIncluded (s : ProductDefinition) : Bool :=
  s.section1Flags &&& 128 ≠ 0

def ProductDefinition.BitmapIncluded (s : ProductDefinition) : Bool :=
  s.section1Flags &&& 64 ≠ 0

/-- The field assignments of `ProductDefinition.parseBytes`, performed after
its 28-byte minimum-length check (so every index read here is in range).
Note `decimalScaleFactor` is computed by the source from `data[21]`/`data[22]`
— the same bytes as `numberIncludedInAverage` — although the source's own
octet table places the decimal scale factor at octets 27-28, i.e. `data[26]`
and `data[27]`. -/
def ProductDefinition.ofBytes (data : List Nat) : ProductDefinition where
  section1Length := parse3ByteUint (data.getD 0 0) (data.getD 1 0) (data.getD 2 0)
  table2Version := data.getD 3 0
  center := data.getD 4 0
  generatingProcessIdentifier := data.getD 5 0
  gridDefinition := data.getD 6 0
  section1Flags := data.getD 7 0
  indicatorOfParameter := data.getD 8 0
  indicatorOfTypeOfLevel := data.getD 9 0
  heightPressureEtcOfLevels := parse2ByteUint (data.getD 10 0) (data.getD 11 0)
  yearOfCentury := data.getD 12 0
  month := data.getD 13 0
  day := data.getD 14 0
  hour := data.getD 15 0
  minute := data.getD 16 0
  unitOfTimeRange := data.getD 17 0
  p1 := data.getD 18 0
  p2 := data.getD 19 0
  timeRangeIndicator := data.getD 20 0
  numberIncludedInAverage := parse2ByteUint (data.getD 21 0) (data.getD 22 0)
  numberMissingFromAveragesOrAccumulations := data.getD 23 0
  centuryOfReferenceTimeOfData := data.getD 24 0
  subCentre := data.getD 25 0
  decimalScaleFactor := parse2ByteInt (data.getD 21 0) (data.getD 22 0)

def ProductDefinition.parseBytes (data : List Nat) :
    Except PErr (ProductDefinition × Nat) :=
  if data.length < 28 then
    .error (.err "GRIB file section must be at least 28 bytes long")
  else if (ProductDefinition.ofBytes data).section1Length > data.length then
    .error (.err "section 1 claims its length is greater than data size")
  else
    .ok (ProductDefinition.ofBytes data, (ProductDefinition.ofBytes data).section1Length)

/-- Angle in thousandths of a degree (Go: `milliDegrees int32`). -/
structure QuantizedAngle where
  milliDegrees : Int
deriving DecidableEq

structure LatLng where
  lat : QuantizedAngle
  lng : QuantizedAngle
deriving DecidableEq

/-- Flag/Code table 8 predicates on the scanning-mode byte
(`pointsScanInMinusIDirection = 1 << 7`, `pointsScanInPlusJDirection = 1 << 6`,
`adjPointsJDirectionConsecutive = 1 << 5`). -/
def scanningMode.pointsScanInPlusIDirection (m : Nat) : Bool := m &&& 128 = 0

def scanningMode.pointsScanInPlusJDirection (m : Nat) : Bool := m &&& 64 ≠ 0

def scanningMode.adjacentPointsInIDirectionAreConsecutive (m : Nat) : Bool :=
  m &&& 32 = 0

structure LatLongGrid where
  numPointsAlongParallel : Nat
  numPointsAlongMeridian : Nat
  firstGridPoint : LatLng
  lastGridPoint : LatLng
  parallelIncrement : QuantizedAngle
  meridianIncrement : QuantizedAngle
  resolutionAndComponentFlags : Nat
  scanningMode : Nat
deriving DecidableEq

/-- `LatLongGrid.parseBytes` performs no length check: every byte is read by
direct indexing, so a span shorter than 22 bytes panics (`.oobPanic`).  The
function's Go signature returns only `error`, and that error is always nil. -/
def LatLongGrid.parseBytes (data : List Nat) : Except PErr LatLongGrid := do
  let b0 ← byteAt data 0
  let b1 ← byteAt data 1
  let b2 ← byteAt data 2
  let b3 ← byteAt data 3
  let b4 ← byteAt data 4
  let b5 ← byteAt data 5
  let b6 ← byteAt data 6
  let b7 ← byteAt data 7
  let b8 ← byteAt data 8
  let b9 ← byteAt data 9
  let b10 ← byteAt data 10
  let b11 ← byteAt data 11
  let b12 ← byteAt data 12
  let b13 ← byteAt data 13
  let b14 ← byteAt data 14
  let b15 ← byteAt data 15
  let b16 ← byteAt data 16
  let b17 ← byteAt data 17
  let b18 ← byteAt data 18
  let b19 ← byteAt data 19
  let b20 ← byteAt data 20
  let b21 ← byteAt data 21
  let parallelInc : Int := (parse2ByteUint b17 b18 : Int)
  let meridianInc : Int := (parse2ByteUint b19 b20 : Int)
  let parallelInc :=
    if ¬ scanningMode.pointsScanInPlusIDirection b21 then parallelInc * (-1)
    else parallelInc
  let meridianInc :=
    if ¬ scanningMode.pointsScanInPlusJDirection b21 then meridianInc * (-1)
    else meridianInc
  return {
    numPointsAlongParallel := parse2ByteUint b0 b1
    numPointsAlongMeridian := parse2ByteUint b2 b3
    firstGridPoint := ⟨⟨parse3ByteInt b4 b5 b6⟩, ⟨parse3ByteInt b7 b8 b9⟩⟩
    resolutionAndComponentFlags := b10
    lastGridPoint := ⟨⟨parse3ByteInt b11 b12 b13⟩, ⟨parse3ByteInt b14 b15 b16⟩⟩
    parallelIncrement := ⟨parallelInc⟩
    meridianIncrement := ⟨meridianInc⟩
    scanningMode := b21
  }

/-- Grid-point reconstruction.  Each coordinate is first-grid-point plus
index times the (sign-corrected) increment, in `int32` arithmetic. -/
def LatLongGrid.Points (s : LatLongGrid) : List LatLng :=
  if scanningMode.adjacentPointsInIDirectionAreConsecutive s.scanningMode then
    ((List.range s.numPointsAlongMeridian).map (fun j =>
      let lat : Int :=
        i32 (s.firstGridPoint.lat.milliDegrees +
          i32 ((j : Int) * s.meridianIncrement.milliDegrees))
      (List.range s.numPointsAlongParallel).map (fun i =>
        let lng : Int :=
          i32 (s.firstGridPoint.lng.milliDegrees +
            i32 ((i : Int) * s.parallelIncrement.milliDegrees))
        LatLng.mk ⟨lat⟩ ⟨lng⟩))).flatten
  else
    ((List.range s.numPointsAlongParallel).map (fun i =>
      let lng : Int :=
        i32 (s.firstGridPoint.lng.milliDegrees +
          i32 ((i : Int) * s.parallelIncrement.milliDegrees))
      (List.range s.numPointsAlongMeridian).map (fun j =>
        let lat : Int :=
          i32 (s.firstGridPoint.lat.milliDegrees +
            i32 ((j : Int) * s.meridianIncrement.milliDegrees))
        LatLng.mk ⟨lat⟩ ⟨lng⟩))).flatten

/-- The projection-specific payload of a Grid Description: fully decoded for
data representation type 0 (latitude/longitude), opaque bytes otherwise. -/
inductive GridValue where
  | ll (grid : LatLongGrid) : GridValue
  | unparsed (bytes : List Nat) : GridValue
deriving DecidableEq

structure GridDescription where
  section2Length : Nat
  numberOfVerticalCoordinateValues : Nat
  pvlLocation : Nat
  dataRepresentationType : Nat
  parsedValue : GridValue
deriving DecidableEq

/-- Section 2 — Grid Description.  The payload slice `data[6:section2Length]`
panics when `section2Length < 6`.  An error from `LatLongGrid.parseBytes` is
propagated: the Go sub-parser never returns a non-nil error (a short payload
panics instead), so the source's error-wrapping branch is dead code. -/
def GridDescription.parseBytes (data : List Nat) :
    Except PErr (GridDescription × Nat) :=
  if data.length < 6 then
    .error (.err "GRIB file section must be at least 6 bytes long")
  else
    let s2len := parse3ByteUint (data.getD 0 0) (data.getD 1 0) (data.getD 2 0)
    let nv := data.getD 3 0
    let pvl := data.getD 4 0
    let drt := data.getD 5 0
    if s2len > data.length then
      .error (.err "section 2 claims its length is greater than data size")
    else if s2len < 6 then
      .error .oobPanic
    else
      let representationBytes := (data.take s2len).drop 6
      if drt = 0 then -- DataRepresentationTypeLL
        match LatLongGrid.parseBytes representationBytes with
        | .ok grid => .ok (⟨s2len, nv, pvl, drt, .ll grid⟩, s2len)
        | .error e => .error e
      else
        .ok (⟨s2len, nv, pvl, drt, .unparsed representationBytes⟩, s2len)

structure Bitmap where
  section3Length : Nat
  numberOfUnusedBitsAtEndOfSection3 : Nat
  tableReference : Nat
  values : List Nat
deriving DecidableEq

/-- Section 3 — Bitmap.  When the table reference is zero the literal bitmask
`data[6:section3Length]` is retained (the slice panics when
`section3Length < 6`). -/
def Bitmap.parseBytes (data : List Nat) : Except PErr (Bitmap × Nat) :=
  if data.length < 6 then
    .error (.err "GRIB file section must be at least 6 bytes long")
  else
    let s3len := parse3ByteUint (data.getD 0 0) (data.getD 1 0) (data.getD 2 0)
    let unused := data.getD 3 0
    let tableReference := parse2ByteUint (data.getD 4 0) (data.getD 5 0)
    if s3len > data.length then
      .error (.err "section 3 claims its length is greater than data size")
    else if tableReference = 0 then
      if s3len < 6 then
        .error .oobPanic
      else
        .ok (⟨s3len, unused, tableReference, (data.take s3len).drop 6⟩, s3len)
    else
      .ok (⟨s3len, unused, tableReference, []⟩, s3len)

/-- `binary.LittleEndian.Uint32([]byte{b0, b1, b2, b3})`. -/
def le32 (b0 b1 b2 b3 : Nat) : Nat :=
  b0 + b1 * 256 + b2 * 65536 + b3 * 16777216

/-- Section 4 — Binary Data.  `variables` holds the 32-bit words handed to
`math.Float32frombits` (a bitwise bijection, so the bit patterns determine the
emitted float samples). -/
structure binaryDataSection where
  section4Length : Nat
  dataFlag : Nat
  binaryScaleFactor : Int
  referenceValue : Int
  bitsPerValue : Nat
  variables' : List Nat
  unparsedVariables : List Nat
deriving DecidableEq

/-- Code table 11 bit `binaryDataFlagIntegerValues = 1 << (8-3)`. -/
def binaryDataFlag.floatingPointValuesRepresented (f : Nat) : Bool :=
  f &&& 32 = 0

/-- In the floating-point branch the Go loop is
`for i := 0; i < len(unparsedVariables); i += 4 { s.variables = append(s.variables,
math.Float32frombits(binary.LittleEndian.Uint32(unparsedVariables[0:4]))) }`:
the body slices `unparsedVariables[0:4]` on every iteration, ignoring `i`.
(The slice is never taken when the payload is empty, since the loop guard
fails first.) -/
def binaryDataSection.parseBytes (data : List Nat) :
    Except PErr (binaryDataSection × Nat) :=
  if data.length < 11 then
    .error (.err "GRIB file section must be at least 11 bytes long")
  else
    let s4len := parse3ByteUint (data.getD 0 0) (data.getD 1 0) (data.getD 2 0)
    let dataFlag := data.getD 3 0
    let binaryScaleFactor := parse2ByteInt (data.getD 4 0) (data.getD 5 0)
    let referenceValue :=
      parse4ByteReal (data.getD 6 0) (data.getD 7 0) (data.getD 8 0) (data.getD 9 0)
    let bitsPerValue := data.getD 10 0
    if s4len > data.length then
      .error (.err "section 4 claims its length is greater than data size")
    else if binaryDataFlag.floatingPointValuesRepresented dataFlag then
      if bitsPerValue ≠ 32 then
        .error (.err "bitsPerValue must be 32 for floating point values")
      else
        let unparsedVariables := data.drop 11
        if unparsedVariables.length % 4 ≠ 0 then
          .error (.err "len(data) is not divisible by 4")
        else
          let w0 := le32 (unparsedVariables.getD 0 0) (unparsedVariables.getD 1 0)
            (unparsedVariables.getD 2 0) (unparsedVariables.getD 3 0)
          let vars := (List.range (unparsedVariables.length / 4)).map (fun _ => w0)
          .ok (⟨s4len, dataFlag, binaryScaleFactor, referenceValue, bitsPerValue,
            vars, []⟩, s4len)
    else
      .ok (⟨s4len, dataFlag, binaryScaleFactor, referenceValue, bitsPerValue,
        [], data.drop 11⟩, s4len)

/-- Section 5 — End: the fixed sentinel "7777". -/
def endSection.parseBytes (data : List Nat) : Except PErr Nat :=
  if data.length < 4 then
    .error (.err "expected data length of at least 4")
  else if data.take 4 ≠ [55, 55, 55, 55] then -- "7777"
    .error (.err "bad end sequence")
  else
    .ok 4

structure Message where
  ind : indicatorSection
  product : ProductDefinition
  grid : Option GridDescription
  bitmap : Option Bitmap
  binary : binaryDataSection
deriving DecidableEq

/-- `Read1`, generalized over the two conditionally-invoked section parsers so
that "skipped, never invoked" is expressible: when a flag bit is clear, the
corresponding parser argument is not applied to any input. -/
def Read1Gen (gparse : List Nat → Except PErr (GridDescription × Nat))
    (bparse : List Nat → Except PErr (Bitmap × Nat)) (data : List Nat) :
    Except PErr (Message × Nat) :=
  match indicatorSection.parseBytes data with
  | .error e => .error e
  | .ok (sec0, n0) =>
    let unconsumed0 := data.drop n0
    match ProductDefinition.parseBytes unconsumed0 with
    | .error e => .error e
    | .ok (sec1, n1) =>
      let unconsumed1 := unconsumed0.drop n1
      let gridStep : Except PErr (Option GridDescription × List Nat) :=
        if sec1.gridDescriptionSectionIncluded then
          match gparse unconsumed1 with
          | .error e => .error e
          | .ok (sec2, n2) => .ok (some sec2, unconsumed1.drop n2)
        else
          .ok (none, unconsumed1)
      match gridStep with
      | .error e => .error e
      | .ok (sec2, unconsumed2) =>
        let bitmapStep : Except PErr (Option Bitmap × List Nat) :=
          if sec1.BitmapIncluded then
            match bparse unconsumed2 with
            | .error e => .error e
            | .ok (sec3, n3) => .ok (some sec3, unconsumed2.drop n3)
          else
            .ok (none, unconsumed2)
        match bitmapStep with
        | .error e => .error e
        | .ok (sec3, unconsumed3) =>
          match binaryDataSection.parseBytes unconsumed3 with
          | .error e => .error e
          | .ok (sec4, n4) =>
            let unconsumed4 := unconsumed3.drop n4
            match endSection.parseBytes unconsumed4 with
            | .error e => .error e
            | .ok n5 =>
              let unconsumed5 := unconsumed4.drop n5
              let consumedCount := data.length - unconsumed5.length
              if consumedCount ≠ sec0.messageLength then
                .error (.err "consumed bytes do not match header message length")
              else
                .ok (⟨sec0, sec1, sec2, sec3, sec4⟩, consumedCount)

/-- `Read1` reads a single GRIB1 message from a byte array. -/
def Read1 (data : List Nat) : Except PErr (Message × Nat) :=
  Read1Gen GridDescription.parseBytes Bitmap.parseBytes data

/-- Strip leading zero bytes, then read one message; an all-zero (or empty)
buffer yields a `none` record (Go returns a nil `*Message`). -/
def read1MaybeZeroPadded : List Nat → Except PErr (Option Message × Nat)
  | [] => .ok (none, 0)
  | 0 :: rest =>
    match read1MaybeZeroPadded rest with
    | .ok (m, n) => .ok (m, n + 1)
    | .error e => .error e
  | data =>
    match Read1 data with
    | .ok (m, n) => .ok (some m, n)
    | .error e => .error e

/-- The `Read` loop.  Fuel bounds the iteration count; `data.length` suffices
because every successful iteration consumes at least one byte (a nonempty
buffer either starts with zeros, all consumed, or a message of at least 8
bytes). -/
def ReadAux : Nat → List Nat → Except PErr (List (Option Message))
  | _, [] => .ok []
  | 0, _ :: _ => .error (.err "loop limit") -- unreachable with fuel ≥ length
  | fuel + 1, b :: rest =>
    match read1MaybeZeroPadded (b :: rest) with
    | .error e => .error e
    | .ok (record, bytesRead) =>
      match ReadAux fuel ((b :: rest).drop bytesRead) with
      | .error e => .error e
      | .ok out => .ok (record :: out)

/-- `Read` collects the per-iteration records in order; note the Go code
appends `record` unconditionally, including the nil record produced for a
trailing run of zeros. -/
def Read (data : List Nat) : Except PErr (List (Option Message)) :=
  ReadAux data.length data

lemma land_two_pow_sub_one (x k : Nat) : x &&& (2 ^ k - 1) = x % 2 ^ k := by
  apply Nat.eq_of_testBit_eq
  intro i
  simp [Nat.testBit_and, Nat.testBit_two_pow_sub_one, Nat.testBit_mod_two_pow,
    Bool.and_comm]

lemma land_two_pow_eq_zero_iff (x k : Nat) :
    x &&& 2 ^ k = 0 ↔ x.testBit k = false := by
  rw [Nat.and_two_pow]
  cases h : x.testBit k <;> simp [h, Nat.pow_eq_zero]

end grib1

namespace hexfp

/-- Package `hexademicalfloatingpoint`: IBM hexadecimal floating-point decode,
`R = (-1)^s * 2^(-24) * B * 16^(A-64)`.  Every representable value is an
integer multiple of `2^(4*(A-64)-24)` with a 24-bit mantissa, so the Go
`float64` computation (`math.Ldexp(float64(b), exp)` followed by a sign flip)
is exact: the mantissa `b < 2^24` fits in 53 bits and the scaled value stays
inside the normal `float64` range (`2^-280` to `2^252`).  The embedding
therefore computes in `ℚ`.  Byte reads mirror Go's unchecked indexing: an
input shorter than 4 bytes has no result (`none`, a Go runtime panic). -/
def Parse32 (bytes : List Nat) : Option ℚ := do
  let b0 ← bytes.get? 0
  let b1 ← bytes.get? 1
  let b2 ← bytes.get? 2
  let b3 ← bytes.get? 3
  let a := b0 &&& 0b01111111
  let exp : Int := 4 * ((a : Int) - 64) - 24
  let b : Nat := (b1 <<< 16) ||| (b2 <<< 8) ||| b3
  let out : ℚ := (b : ℚ) * (2 : ℚ) ^ exp
  let isNegative := b0 &&& 0b10000000 ≠ 0
  if isNegative then
    return out * (-1)
  else
    return out

end hexfp

/-- C10: `Parse32` indexes bytes 0 through 3 of its argument with no length
check, so on every input of fewer than 4 bytes it has no defined result (the
embedding yields `none`, modelling the Go out-of-range panic), and on every
input of at least 4 bytes it yields a value. -/
theorem C10_Parse32_partial_on_short_input (bytes : List Nat) :
    hexfp.Parse32 bytes = none ↔ bytes.length < 4 := by
  match bytes with
  | [] => simp [hexfp.Parse32]
  | [b0] => simp [hexfp.Parse32, Option.bind]
  | [b0, b1] => simp [hexfp.Parse32, Option.bind]
  | [b0, b1, b2] => simp [hexfp.Parse32, Option.bind]
  | b0 :: b1 :: b2 :: b3 :: rest =>
    have h1 : hexfp.Parse32 (b0 :: b1 :: b2 :: b3 :: rest) ≠ none := by
      intro h
      simp [hexfp.Parse32, Option.bind] at h
      split at h <;> simp at h
    have h2 : ¬ (b0 :: b1 :: b2 :: b3 :: rest).length < 4 := by
      simp
    exact iff_of_false h1 h2

namespace grib1

lemma parse2ByteUint_eq (b0 b1 : Nat) : parse2ByteUint b0 b1 = b0 * 256 + b1 := by
  simp [parse2ByteUint, parse3ByteUint, parse4ByteUint]

lemma parse3ByteUint_eq (b0 b1 b2 : Nat) :
    parse3ByteUint b0 b1 b2 = b0 * 65536 + b1 * 256 + b2 := by
  simp [parse3ByteUint, parse4ByteUint]

/-- `parse2ByteInt` in terms of the assembled unsigned value. -/
lemma parse2ByteInt_eq (b0 b1 : Nat) :
    parse2ByteInt b0 b1 =
      if (b0 * 256 + b1).testBit 15 then -(((b0 * 256 + b1) % 2 ^ 15 : Nat) : Int)
      else (((b0 * 256 + b1) % 2 ^ 15 : Nat) : Int) := by
  have hz := land_two_pow_eq_zero_iff (b0 * 256 + b1) 15
  have hm := land_two_pow_sub_one (b0 * 256 + b1) 15
  norm_num at hz hm
  simp only [parse2ByteInt, parse2ByteUint_eq, hm]
  rcases h : (b0 * 256 + b1).testBit 15 with _ | _
  · rw [if_neg (by simp [Nat.shiftLeft_eq, hz, h]), if_neg (by simp [h])]
    norm_num
  · rw [if_pos (by simp [Nat.shiftLeft_eq, hz, h]), if_pos (by simp [h])]
    norm_num

lemma parse3ByteInt_eq (b0 b1 b2 : Nat) :
    parse3ByteInt b0 b1 b2 =
      if (b0 * 65536 + b1 * 256 + b2).testBit 23 then
        -(((b0 * 65536 + b1 * 256 + b2) % 2 ^ 23 : Nat) : Int)
      else (((b0 * 65536 + b1 * 256 + b2) % 2 ^ 23 : Nat) : Int) := by
  have hz := land_two_pow_eq_zero_iff (b0 * 65536 + b1 * 256 + b2) 23
  have hm := land_two_pow_sub_one (b0 * 65536 + b1 * 256 + b2) 23
  norm_num at hz hm
  simp only [parse3ByteInt, parse3ByteUint_eq, hm]
  rcases h : (b0 * 65536 + b1 * 256 + b2).testBit 23 with _ | _
  · rw [if_neg (by simp [Nat.shiftLeft_eq, hz, h]), if_neg (by simp [h])]
    norm_num
  · rw [if_pos (by simp [Nat.shiftLeft_eq, hz, h]), if_pos (by simp [h])]
    norm_num

end grib1

/-- C7: encoding an integer `V` into `n ∈ {2, 3}` bytes in sign-magnitude form
(most significant bit of the leftmost byte the sign, remaining `8n-1` bits the
magnitude `|V|`) and decoding with `parse2ByteInt` / `parse3ByteInt` yields
`V` again, for every `V` with `|V| ≤ 2^(8n-1) - 1`. -/
theorem C7_signMagnitude_roundtrip :
    (∀ V : Int, V.natAbs ≤ 2 ^ 15 - 1 →
      grib1.parse2ByteInt (grib1.encodeSignMag2 V).1 (grib1.encodeSignMag2 V).2 = V) ∧
    (∀ V : Int, V.natAbs ≤ 2 ^ 23 - 1 →
      grib1.parse3ByteInt (grib1.encodeSignMag3 V).1 (grib1.encodeSignMag3 V).2.1
        (grib1.encodeSignMag3 V).2.2 = V) := by
  constructor
  · intro V hV
    rcases le_or_lt 0 V with hpos | hneg
    · have hs : ¬ V < 0 := not_lt.mpr hpos
      simp only [grib1.encodeSignMag2, if_neg hs, grib1.parse2ByteInt_eq]
      set m := V.natAbs with hm
      have hmlt : m < 2 ^ 15 := by omega
      have hassemble : (0 * 128 + m / 256) * 256 + m % 256 = m := by omega
      rw [hassemble, Nat.testBit_lt_two_pow hmlt, if_neg (by simp),
        Nat.mod_eq_of_lt hmlt]
      omega
    · have hs : V < 0 := hneg
      simp only [grib1.encodeSignMag2, if_pos hs, grib1.parse2ByteInt_eq]
      set m := V.natAbs with hm
      have hmlt : m < 2 ^ 15 := by omega
      have hassemble : (1 * 128 + m / 256) * 256 + m % 256 = 2 ^ 15 + m := by omega
      rw [hassemble, Nat.testBit_two_pow_add_eq, Nat.testBit_lt_two_pow hmlt]
      simp only [Bool.not_false, if_pos]
      rw [Nat.add_mod_left, Nat.mod_eq_of_lt hmlt]
      omega
  · intro V hV
    rcases le_or_lt 0 V with hpos | hneg
    · have hs : ¬ V < 0 := not_lt.mpr hpos
      simp only [grib1.encodeSignMag3, if_neg hs, grib1.parse3ByteInt_eq]
      set m := V.natAbs with hm
      have hmlt : m < 2 ^ 23 := by omega
      have hassemble :
          (0 * 128 + m / 65536) * 65536 + m / 256 % 256 * 256 + m % 256 = m := by
        omega
      rw [hassemble, Nat.testBit_lt_two_pow hmlt, if_neg (by simp),
        Nat.mod_eq_of_lt hmlt]
      omega
    · have hs : V < 0 := hneg
      simp only [grib1.encodeSignMag3, if_pos hs, grib1.parse3ByteInt_eq]
      set m := V.natAbs with hm
      have hmlt : m < 2 ^ 23 := by omega
      have hassemble :
          (1 * 128 + m / 65536) * 65536 + m / 256 % 256 * 256 + m % 256 =
            2 ^ 23 + m := by
        omega
      rw [hassemble, Nat.testBit_two_pow_add_eq, Nat.testBit_lt_two_pow hmlt]
      simp only [Bool.not_false, if_pos]
      rw [Nat.add_mod_left, Nat.mod_eq_of_lt hmlt]
      omega

namespace hexfp

/-- Bit assembly of the 24-bit mantissa. -/
lemma mantissa_eq (b1 b2 b3 : Nat) (h2 : b2 < 256) (h3 : b3 < 256) :
    (b1 <<< 16) ||| (b2 <<< 8) ||| b3 = b1 * 65536 + b2 * 256 + b3 := by
  have hlow : b2 * 256 + b3 = (2 ^ 8 * b2) ||| b3 := by
    have := Nat.mul_add_lt_is_or (i := 8) (b := b3) (by omega) b2
    omega
  have hhigh : b1 * 65536 + (b2 * 256 + b3) = (2 ^ 16 * b1) ||| (b2 * 256 + b3) := by
    have := Nat.mul_add_lt_is_or (i := 16) (b := b2 * 256 + b3) (by omega) b1
    omega
  calc (b1 <<< 16) ||| (b2 <<< 8) ||| b3
      = (2 ^ 16 * b1) ||| ((2 ^ 8 * b2) ||| b3) := by
        rw [Nat.shiftLeft_eq, Nat.shiftLeft_eq, Nat.or_assoc]
        ring_nf
    _ = b1 * 65536 + (b2 * 256 + b3) := by rw [← hlow, ← hhigh]
    _ = b1 * 65536 + b2 * 256 + b3 := by ring

lemma byte_land127 (b : Nat) : b &&& 127 = b % 128 := by
  have := grib1.land_two_pow_sub_one b 7
  norm_num at this
  exact this

lemma byte_sign_bit (b : Nat) (h : b < 256) : (b &&& 128 = 0) ↔ b / 128 = 0 := by
  have hz := grib1.land_two_pow_eq_zero_iff b 7
  norm_num at hz
  rw [hz, Nat.testBit_to_div_mod]
  norm_num
  omega

/-- One unfolding step of `Parse32` on an input of at least four bytes. -/
lemma Parse32_eval (b0 b1 b2 b3 : Nat) (rest : List Nat) :
    Parse32 (b0 :: b1 :: b2 :: b3 :: rest) =
      (if b0 &&& 128 ≠ 0 then
        some (((b1 <<< 16 ||| b2 <<< 8 ||| b3 : Nat) : ℚ) *
          (2 : ℚ) ^ (4 * (((b0 &&& 127 : Nat) : Int) - 64) - 24) * (-1))
      else
        some (((b1 <<< 16 ||| b2 <<< 8 ||| b3 : Nat) : ℚ) *
          (2 : ℚ) ^ (4 * (((b0 &&& 127 : Nat) : Int) - 64) - 24))) := rfl

end hexfp

/-- C6: for every 4-byte input, `Parse32` returns exactly
`(-1)^s * B * 2^(4*(A-64) - 24)` where `s` is the sign bit of byte 0, `A` its
low 7 bits, and `B` the 24-bit big-endian mantissa from bytes 1-3; in
particular the all-zero input decodes to exactly 0, and
`[0b11000010, 0b01110110, 0b10100000, 0b00000000]` decodes to exactly
`-118.625`. -/
theorem C6_Parse32_formula :
    (∀ b0 b1 b2 b3 : Nat, b0 < 256 → b1 < 256 → b2 < 256 → b3 < 256 →
      hexfp.Parse32 [b0, b1, b2, b3] =
        some ((-1 : ℚ) ^ (b0 / 128) * ((b1 * 65536 + b2 * 256 + b3 : Nat) : ℚ) *
          (2 : ℚ) ^ (4 * ((b0 % 128 : Nat) - 64 : Int) - 24))) ∧
    hexfp.Parse32 [0, 0, 0, 0] = some 0 ∧
    hexfp.Parse32 [0b11000010, 0b01110110, 0b10100000, 0b00000000] =
      some (-118.625 : ℚ) := by
  refine ⟨?_, ?_, ?_⟩
  · intro b0 b1 b2 b3 h0 h1 h2 h3
    rw [hexfp.Parse32_eval, hexfp.mantissa_eq b1 b2 b3 h2 h3, hexfp.byte_land127]
    by_cases hs : b0 &&& 128 = 0
    · have hdiv : b0 / 128 = 0 := (hexfp.byte_sign_bit b0 h0).mp hs
      rw [if_neg (by simp [hs]), hdiv]
      norm_num
    · have hdiv : b0 / 128 = 1 := by
        have := (hexfp.byte_sign_bit b0 h0).not.mp hs
        omega
      rw [if_pos hs, hdiv]
      norm_num
      ring
  · norm_num [hexfp.Parse32, Option.bind]
  · rw [hexfp.Parse32_eval]
    norm_num [show (194 &&& 128 : Nat) = 128 from by rfl,
      show (194 &&& 127 : Nat) = 66 from by rfl,
      show (118 <<< 16 ||| 160 <<< 8 ||| 0 : Nat) = 7774208 from by rfl]

/-- Witness for C6 at the worked-example input `[194, 118, 160, 0]`. -/
theorem C6_Parse32_formula_witness :
    hexfp.Parse32 [194, 118, 160, 0] =
      some ((-1 : ℚ) ^ (194 / 128) * ((118 * 65536 + 160 * 256 + 0 : Nat) : ℚ) *
        (2 : ℚ) ^ (4 * ((194 % 128 : Nat) - 64 : Int) - 24)) :=
  C6_Parse32_formula.1 194 118 160 0 (by norm_num) (by norm_num) (by norm_num)
    (by norm_num)

/-- Witness for C7 at `V = -(2^15 - 1)`, `V = 0` and `V = -(2^23 - 1)`. -/
theorem C7_signMagnitude_roundtrip_witness :
    grib1.parse2ByteInt (grib1.encodeSignMag2 (-32767)).1
        (grib1.encodeSignMag2 (-32767)).2 = -32767 ∧
    grib1.parse2ByteInt (grib1.encodeSignMag2 0).1 (grib1.encodeSignMag2 0).2 = 0 ∧
    grib1.parse3ByteInt (grib1.encodeSignMag3 (-8388607)).1
        (grib1.encodeSignMag3 (-8388607)).2.1
        (grib1.encodeSignMag3 (-8388607)).2.2 = -8388607 :=
  ⟨C7_signMagnitude_roundtrip.1 (-32767) (by decide),
   C7_signMagnitude_roundtrip.1 0 (by decide),
   C7_signMagnitude_roundtrip.2 (-8388607) (by decide)⟩

/-- Product Definition span for C1: 28 bytes, declared length 28, bytes 21-22
zero, bytes 26-27 (octets 27-28) holding the sign-magnitude value 5. -/
def c1span : List Nat :=
  [0, 0, 28, 0, 0, 0, 0, 0, 0, 0, 0, 0, 0, 0,
   0, 0, 0, 0, 0, 0, 0, 0, 0, 0, 0, 0, 0, 5]

/-- C1: the claim states the decoded decimal scale factor equals the
sign-magnitude decoding of octets 27-28 (zero-based bytes 26 and 27).  The
code instead decodes it from bytes 21 and 22 (the number-included-in-average
octets): on `c1span`, whose bytes 26-27 encode 5 and whose bytes 21-22 are
zero, the decoder returns a decimal scale factor of 0 while the
sign-magnitude decoding of bytes 26-27 is 5.  This contradicts the source's
own octet table and its guard comment ("data[27] should be
decimalScaleFactor"), so the claim is right and the code wrong. -/
theorem C1_decimalScaleFactor_misread :
    (grib1.ProductDefinition.parseBytes c1span).map
        (fun p => (p.1.decimalScaleFactor, p.2)) = .ok (0, 28) ∧
    grib1.parse2ByteInt (c1span.getD 26 0) (c1span.getD 27 0) = 5 := by
  constructor <;> decide

/-- Binary Data span for C2: declared length 19, flag 0 (floating-point
samples), bits-per-value 32, payload of two distinct 4-byte groups
`[1,0,0,0]` and `[2,0,0,0]`. -/
def c2span : List Nat :=
  [0, 0, 19, 0, 0, 0, 0, 0, 0, 0, 32, 1, 0, 0, 0, 2, 0, 0, 0]

/-- C2: the claim states the i-th emitted sample is decoded from payload
bytes `4i..4i+3`.  The decoder's loop body reads payload bytes `0..3` on
every iteration, so on `c2span` both emitted samples carry the bit pattern
of the first group (`le32 1 0 0 0 = 1`) although the second group decodes
to the distinct pattern `le32 2 0 0 0 = 2`: distinct groups do not produce
their own values.  The loop variable `i` is dead in the loop body — a slip —
so the claim is right and the code wrong. -/
theorem C2_floatSamples_repeat_first_group :
    (grib1.binaryDataSection.parseBytes c2span).map
        (fun p => (p.1.variables', p.2)) = .ok ([1, 1], 19) ∧
    grib1.le32 2 0 0 0 = 2 ∧ (1 : Nat) ≠ 2 := by
  refine ⟨by decide, by decide, by decide⟩

/-- Latitude/longitude payload for C5: a 2×2 grid, first point (0,0), last
point (1,1) degrees (thousandths: 1000), increments one degree, scanning
mode byte 64 (`+i`, `+j`, adjacent points consecutive along i). -/
def c5span1 : List Nat :=
  [0, 2, 0, 2, 0, 0, 0, 0, 0, 0, 0, 0, 3, 232, 0, 3, 232, 3, 232, 3, 232, 64]

/-- Same grid with the points-scan-in-plus-i-direction flag reversed
(scanning mode byte 192). -/
def c5span2 : List Nat :=
  [0, 2, 0, 2, 0, 0, 0, 0, 0, 0, 0, 0, 3, 232, 0, 3, 232, 3, 232, 3, 232, 192]

/-- C5: on the 2×2 grid of `c5span1`, `Points` returns exactly
[(0,0), (0,1), (1,0), (1,1)] in degrees (stored as thousandths), in that
order; with the plus-i flag reversed (`c5span2`) the parallel increment is
negated and `Points` returns [(0,0), (0,-1), (1,0), (1,-1)]. -/
theorem C5_points_2x2_scanning_modes :
    (grib1.LatLongGrid.parseBytes c5span1).map (fun g => g.Points) =
      .ok [⟨⟨0⟩, ⟨0⟩⟩, ⟨⟨0⟩, ⟨1000⟩⟩, ⟨⟨1000⟩, ⟨0⟩⟩, ⟨⟨1000⟩, ⟨1000⟩⟩] ∧
    (grib1.LatLongGrid.parseBytes c5span2).map (fun g => g.Points) =
      .ok [⟨⟨0⟩, ⟨0⟩⟩, ⟨⟨0⟩, ⟨-1000⟩⟩, ⟨⟨1000⟩, ⟨0⟩⟩, ⟨⟨1000⟩, ⟨-1000⟩⟩] := by
  constructor <;> decide

/-- Grid Description span for C8: declared section length 8, projection tag 0
(latitude/longitude), leaving only 2 projection-payload bytes — fewer than
the 22 the sub-record needs. -/
def c8gdspan : List Nat := [0, 0, 8, 0, 255, 0, 9, 9]

/-- A full message embedding `c8gdspan`: indicator (length 44, edition 1),
Product Definition with the grid-present flag set, then the truncated Grid
Description. -/
def c8msg : List Nat :=
  [71, 82, 73, 66, 0, 0, 44, 1] ++
  [0, 0, 28, 0, 0, 0, 0, 128, 0, 0, 0, 0, 0, 0,
   0, 0, 0, 0, 0, 0, 0, 0, 0, 0, 0, 0, 0, 0] ++
  c8gdspan

/-- C8: the claim states a Grid Description with projection tag 0 whose
declared length provides fewer than the 22 projection-payload bytes fails
with an explicit truncation error rather than an out-of-range read.  The
latitude/longitude sub-parser performs no length check, so on `c8gdspan` the
decode — and `Read1` on the whole message `c8msg` — ends in an out-of-range
read (modelled `.oobPanic`), not a returned truncation error.  Every other
section decoder in the source does carry a minimum-length guard, so the
missing check is a slip and the claim describes the intent. -/
theorem C8_latlong_truncation_panics :
    grib1.GridDescription.parseBytes c8gdspan = .error .oobPanic ∧
    grib1.Read1 c8msg = .error .oobPanic ∧
    ∀ s, grib1.PErr.oobPanic ≠ grib1.PErr.err s := by
  refine ⟨by decide, by decide, fun s => by simp⟩

/-- C9: the claim states a buffer of only zero bytes yields the empty list.
The reader's loop appends the record returned by `read1MaybeZeroPadded`
unconditionally, and for a trailing run of zeros that record is Go's nil
`*Message` (embedded `none`): an all-zero buffer yields `[none]`, a
one-element list, not `[]`. -/
theorem C9_read_allzero_yields_nil_entry :
    grib1.Read [0, 0, 0] = .ok [none] ∧
    grib1.Read [] = .ok [] ∧
    ([none] : List (Option grib1.Message)) ≠ [] := by
  refine ⟨by decide, by decide, by decide⟩

/-- Binary Data span for C4: declared length 12, integer-samples flag,
retained payload `[99]`. -/
def c4bin1 : List Nat := [0, 0, 12, 32, 0, 0, 0, 0, 0, 0, 8, 99]

/-- `c4bin1` with one extra byte beyond the declared length. -/
def c4bin2 : List Nat := [0, 0, 12, 32, 0, 0, 0, 0, 0, 0, 8, 99, 7]

/-- Product Definition span for C4 with declared length 10 (< 28). -/
def c4pd1 : List Nat :=
  [0, 0, 10, 0, 0, 0, 0, 0, 0, 0, 0, 0, 0, 0,
   0, 0, 0, 0, 0, 0, 0, 0, 0, 0, 0, 0, 0, 0]

/-- `c4pd1` with byte 21 (beyond the declared length 10) changed to 1. -/
def c4pd2 : List Nat :=
  [0, 0, 10, 0, 0, 0, 0, 0, 0, 0, 0, 0, 0, 0,
   0, 0, 0, 0, 0, 0, 0, 1, 0, 0, 0, 0, 0, 0]

/-- Counterexample to C4 as stated.  The Binary Data decoder retains the
payload slice `data[11:]` — to the end of the provided span, not to the
declared length L = 12 — so `c4bin1` and `c4bin2`, which agree on their
first 12 bytes, decode to records with different retained payloads (`[99]`
vs `[99, 7]`) despite equal consumed counts.  The Product Definition decoder
reads its fixed field area (bytes 0-27) even when the declared length L is
smaller: `c4pd1` and `c4pd2` agree on their first L = 10 bytes yet decode to
different decimal scale factors. -/
theorem C4_prefix_insensitivity_counterexample :
    (grib1.binaryDataSection.parseBytes c4bin1).map
        (fun p => (p.1.unparsedVariables, p.2)) = .ok ([99], 12) ∧
    (grib1.binaryDataSection.parseBytes c4bin2).map
        (fun p => (p.1.unparsedVariables, p.2)) = .ok ([99, 7], 12) ∧
    c4bin2.take 12 = c4bin1 ∧
    (grib1.ProductDefinition.parseBytes c4pd1).map
        (fun p => (p.1.decimalScaleFactor, p.2)) = .ok (0, 10) ∧
    (grib1.ProductDefinition.parseBytes c4pd2).map
        (fun p => (p.1.decimalScaleFactor, p.2)) = .ok (256, 10) ∧
    c4pd1.take 10 = c4pd2.take 10 ∧
    ([99] : List Nat) ≠ [99, 7] ∧ (0 : Int) ≠ 256 := by
  refine ⟨by decide, by decide, by decide, by decide, by decide, by decide,
    by decide, by decide⟩

/-- C4 (amended): prefix-insensitivity beyond the declared length holds for
the Product Definition decoder on spans whose declared length L is at least
28 (its fixed field area): if parsing succeeds on `d1` with declared length
`n ≥ 28` and `d2` agrees with `d1` on the first `n` bytes (and has at least
`n` bytes), then parsing `d2` yields the same record and the same consumed
count.  (It fails for decoders that retain payload spans sliced to the end
of the provided span — see the counterexample.) -/
theorem C4_productDefinition_prefix_insensitive (d1 d2 : List Nat)
    (r : grib1.ProductDefinition) (n : Nat)
    (h : grib1.ProductDefinition.parseBytes d1 = .ok (r, n))
    (h28 : 28 ≤ n) (htake : d1.take n = d2.take n) (hlen : n ≤ d2.length) :
    grib1.ProductDefinition.parseBytes d2 = .ok (r, n) := by
  have hget : ∀ i, i < n → d1.getD i 0 = d2.getD i 0 := by
    intro i hi
    have h1 : (d1.take n).getD i 0 = (d2.take n).getD i 0 := by rw [htake]
    rwa [List.getD_eq_getElem?_getD, List.getD_eq_getElem?_getD,
      List.getElem?_take_of_lt hi, List.getElem?_take_of_lt hi,
      ← List.getD_eq_getElem?_getD, ← List.getD_eq_getElem?_getD] at h1
  have hof : grib1.ProductDefinition.ofBytes d1 = grib1.ProductDefinition.ofBytes d2 := by
    unfold grib1.ProductDefinition.ofBytes
    rw [hget 0 (by omega), hget 1 (by omega), hget 2 (by omega),
      hget 3 (by omega), hget 4 (by omega), hget 5 (by omega),
      hget 6 (by omega), hget 7 (by omega), hget 8 (by omega),
      hget 9 (by omega), hget 10 (by omega), hget 11 (by omega),
      hget 12 (by omega), hget 13 (by omega), hget 14 (by omega),
      hget 15 (by omega), hget 16 (by omega), hget 17 (by omega),
      hget 18 (by omega), hget 19 (by omega), hget 20 (by omega),
      hget 21 (by omega), hget 22 (by omega), hget 23 (by omega),
      hget 24 (by omega), hget 25 (by omega)]
  unfold grib1.ProductDefinition.parseBytes at h ⊢
  by_cases hl1 : d1.length < 28
  · rw [if_pos hl1] at h
    exact absurd h (by simp)
  rw [if_neg hl1] at h
  by_cases hgt : (grib1.ProductDefinition.ofBytes d1).section1Length > d1.length
  · rw [if_pos hgt] at h
    exact absurd h (by simp)
  rw [if_neg hgt] at h
  simp only [Except.ok.injEq, Prod.mk.injEq] at h
  obtain ⟨hr, hn⟩ := h
  have hl2 : ¬ d2.length < 28 := by omega
  have hgt2 : ¬ (grib1.ProductDefinition.ofBytes d2).section1Length > d2.length := by
    rw [← hof]
    omega
  rw [if_neg hl2, if_neg hgt2, ← hof, hr]
  have hrn : r.section1Length = n := by rw [← hr]; exact hn
  rw [hrn]

/-- Witness for the amended C4: a 28-byte Product Definition span with
declared length 28, re-parsed from an extended span agreeing on those 28
bytes. -/
theorem C4_productDefinition_prefix_insensitive_witness :
    grib1.ProductDefinition.parseBytes (c1span ++ [9]) =
      .ok (grib1.ProductDefinition.ofBytes c1span, 28) :=
  C4_productDefinition_prefix_insensitive c1span (c1span ++ [9])
    (grib1.ProductDefinition.ofBytes c1span) 28 (by decide) (by decide)
    (by decide) (by decide)


namespace grib1

lemma gridDescriptionSectionIncluded_iff (s : ProductDefinition) :
    s.gridDescriptionSectionIncluded = true ↔ s.section1Flags &&& 128 ≠ 0 := by
  simp [ProductDefinition.gridDescriptionSectionIncluded]

lemma BitmapIncluded_iff (s : ProductDefinition) :
    s.BitmapIncluded = true ↔ s.section1Flags &&& 64 ≠ 0 := by
  simp [ProductDefinition.BitmapIncluded]

end grib1

section C3section

open grib1

/-- C3: whenever `Read1` succeeds, the returned message contains a Grid
Description iff bit 0x80 of the Product Definition flag byte is set and a
Bitmap iff bit 0x40 is set; moreover, when a flag bit is clear the
corresponding section parser is never invoked on the input: `Read1`
generalized over that parser (`Read1Gen`) produces the identical result with
an arbitrary replacement parser, so the state is skipped, not entered and
discarded. -/
theorem C3_flag_gated_sections (data : List Nat) (m : Message) (n : Nat)
    (gp : List Nat → Except PErr (GridDescription × Nat))
    (bp : List Nat → Except PErr (Bitmap × Nat))
    (h : Read1 data = .ok (m, n)) :
    (m.grid.isSome = true ↔ m.product.section1Flags &&& 128 ≠ 0) ∧
    (m.bitmap.isSome = true ↔ m.product.section1Flags &&& 64 ≠ 0) ∧
    (m.product.section1Flags &&& 128 = 0 →
      Read1Gen gp Bitmap.parseBytes data = Read1 data) ∧
    (m.product.section1Flags &&& 64 = 0 →
      Read1Gen GridDescription.parseBytes bp data = Read1 data) := by
  unfold Read1 Read1Gen at h
  cases h0 : indicatorSection.parseBytes data with
  | error e => rw [h0] at h; simp at h
  | ok p0 =>
  rw [h0] at h
  obtain ⟨sec0, n0⟩ := p0
  dsimp only at h
  cases h1 : ProductDefinition.parseBytes (data.drop n0) with
  | error e => rw [h1] at h; simp at h
  | ok p1 =>
  rw [h1] at h
  obtain ⟨sec1, n1⟩ := p1
  dsimp only at h
  by_cases hg : sec1.gridDescriptionSectionIncluded = true
  · rw [if_pos hg] at h
    cases h2 : GridDescription.parseBytes ((data.drop n0).drop n1) with
    | error e => rw [h2] at h; simp at h
    | ok p2 =>
    rw [h2] at h
    obtain ⟨sec2, n2⟩ := p2
    dsimp only at h
    by_cases hb : sec1.BitmapIncluded = true
    · rw [if_pos hb] at h
      cases h3 : Bitmap.parseBytes (((data.drop n0).drop n1).drop n2) with
      | error e => rw [h3] at h; simp at h
      | ok p3 =>
      rw [h3] at h
      obtain ⟨sec3, n3⟩ := p3
      dsimp only at h
      cases h4 : binaryDataSection.parseBytes ((((data.drop n0).drop n1).drop n2).drop n3) with
      | error e => rw [h4] at h; simp at h
      | ok p4 =>
      rw [h4] at h
      obtain ⟨sec4, n4⟩ := p4
      dsimp only at h
      cases h5 : endSection.parseBytes (((((data.drop n0).drop n1).drop n2).drop n3).drop n4) with
      | error e => rw [h5] at h; simp at h
      | ok n5 =>
      rw [h5] at h
      dsimp only at h
      by_cases hfin : data.length -
          ((((((data.drop n0).drop n1).drop n2).drop n3).drop n4).drop n5).length ≠
          sec0.messageLength
      · rw [if_pos hfin] at h; simp at h
      · rw [if_neg hfin] at h
        simp only [Except.ok.injEq, Prod.mk.injEq] at h
        obtain ⟨hm, hn⟩ := h
        subst hm
        refine ⟨⟨fun _ => (gridDescriptionSectionIncluded_iff sec1).mp hg, fun _ => rfl⟩,
          ⟨fun _ => (BitmapIncluded_iff sec1).mp hb, fun _ => rfl⟩,
          fun hc => absurd hc ((gridDescriptionSectionIncluded_iff sec1).mp hg),
          fun hc => absurd hc ((BitmapIncluded_iff sec1).mp hb)⟩
    · rw [if_neg hb] at h
      dsimp only at h
      cases h4 : binaryDataSection.parseBytes (((data.drop n0).drop n1).drop n2) with
      | error e => rw [h4] at h; simp at h
      | ok p4 =>
      rw [h4] at h
      obtain ⟨sec4, n4⟩ := p4
      dsimp only at h
      cases h5 : endSection.parseBytes ((((data.drop n0).drop n1).drop n2).drop n4) with
      | error e => rw [h5] at h; simp at h
      | ok n5 =>
      rw [h5] at h
      dsimp only at h
      by_cases hfin : data.length -
          (((((data.drop n0).drop n1).drop n2).drop n4).drop n5).length ≠
          sec0.messageLength
      · rw [if_pos hfin] at h; simp at h
      · rw [if_neg hfin] at h
        simp only [Except.ok.injEq, Prod.mk.injEq] at h
        obtain ⟨hm, hn⟩ := h
        subst hm
        refine ⟨⟨fun _ => (gridDescriptionSectionIncluded_iff sec1).mp hg, fun _ => rfl⟩,
          ⟨fun hx => absurd hx (by simp), fun hx => absurd ((BitmapIncluded_iff sec1).mpr hx) hb⟩,
          fun hc => absurd hc ((gridDescriptionSectionIncluded_iff sec1).mp hg),
          fun _ => ?_⟩
        unfold Read1 Read1Gen
        rw [h0]
        dsimp only
        rw [h1]
        dsimp only
        rw [if_pos hg, h2]
        dsimp only
        rw [if_neg hb, if_neg hb]
  · rw [if_neg hg] at h
    dsimp only at h
    by_cases hb : sec1.BitmapIncluded = true
    · rw [if_pos hb] at h
      cases h3 : Bitmap.parseBytes ((data.drop n0).drop n1) with
      | error e => rw [h3] at h; simp at h
      | ok p3 =>
      rw [h3] at h
      obtain ⟨sec3, n3⟩ := p3
      dsimp only at h
      cases h4 : binaryDataSection.parseBytes (((data.drop n0).drop n1).drop n3) with
      | error e => rw [h4] at h; simp at h
      | ok p4 =>
      rw [h4] at h
      obtain ⟨sec4, n4⟩ := p4
      dsimp only at h
      cases h5 : endSection.parseBytes ((((data.drop n0).drop n1).drop n3).drop n4) with
      | error e => rw [h5] at h; simp at h
      | ok n5 =>
      rw [h5] at h
      dsimp only at h
      by_cases hfin : data.length -
          (((((data.drop n0).drop n1).drop n3).drop n4).drop n5).length ≠
          sec0.messageLength
      · rw [if_pos hfin] at h; simp at h
      · rw [if_neg hfin] at h
        simp only [Except.ok.injEq, Prod.mk.injEq] at h
        obtain ⟨hm, hn⟩ := h
        subst hm
        refine ⟨⟨fun hx => absurd hx (by simp), fun hx => absurd ((gridDescriptionSectionIncluded_iff sec1).mpr hx) hg⟩,
          ⟨fun _ => (BitmapIncluded_iff sec1).mp hb, fun _ => rfl⟩,
          fun _ => ?_,
          fun hc => absurd hc ((BitmapIncluded_iff sec1).mp hb)⟩
        unfold Read1 Read1Gen
        rw [h0]
        dsimp only
        rw [h1]
        dsimp only
        rw [if_neg hg, if_neg hg]
    · rw [if_neg hb] at h
      dsimp only at h
      cases h4 : binaryDataSection.parseBytes ((data.drop n0).drop n1) with
      | error e => rw [h4] at h; simp at h
      | ok p4 =>
      rw [h4] at h
      obtain ⟨sec4, n4⟩ := p4
      dsimp only at h
      cases h5 : endSection.parseBytes (((data.drop n0).drop n1).drop n4) with
      | error e => rw [h5] at h; simp at h
      | ok n5 =>
      rw [h5] at h
      dsimp only at h
      by_cases hfin : data.length -
          ((((data.drop n0).drop n1).drop n4).drop n5).length ≠
          sec0.messageLength
      · rw [if_pos hfin] at h; simp at h
      · rw [if_neg hfin] at h
        simp only [Except.ok.injEq, Prod.mk.injEq] at h
        obtain ⟨hm, hn⟩ := h
        subst hm
        refine ⟨⟨fun hx => absurd hx (by simp), fun hx => absurd ((gridDescriptionSectionIncluded_iff sec1).mpr hx) hg⟩,
          ⟨fun hx => absurd hx (by simp), fun hx => absurd ((BitmapIncluded_iff sec1).mpr hx) hb⟩,
          fun _ => ?_, fun _ => ?_⟩
        · unfold Read1 Read1Gen
          rw [h0]
          dsimp only
          rw [h1]
          dsimp only
          rw [if_neg hg, if_neg hg]
        · unfold Read1 Read1Gen
          rw [h0]
          dsimp only
          rw [h1]
          dsimp only
          rw [if_neg hg]
          dsimp only
          rw [if_neg hb, if_neg hb]

end C3section

/-- A 28-byte Product Definition span with flag byte 0 (no Grid Description,
no Bitmap). -/
def c3pdspan : List Nat :=
  [0, 0, 28, 0, 0, 0, 0, 0, 0, 0, 0, 0, 0, 0,
   0, 0, 0, 0, 0, 0, 0, 0, 0, 0, 0, 0, 0, 0]

/-- A complete 51-byte message with both presence flags clear: indicator,
Product Definition (`c3pdspan`), Binary Data (integer-samples flag), end
sentinel. -/
def c3data : List Nat :=
  [71, 82, 73, 66, 0, 0, 51, 1] ++ c3pdspan ++
  [0, 0, 11, 32, 0, 0, 0, 0, 0, 0, 8] ++ [55, 55, 55, 55]

/-- The message decoded from `c3data`. -/
def c3msg : grib1.Message :=
  ⟨⟨51⟩, grib1.ProductDefinition.ofBytes (c3data.drop 8), none, none,
    ⟨11, 32, 0, 0, 8, [], [55, 55, 55, 55]⟩⟩

/-- A grid parser that fails on every input, for the skipped-state part of
the C3 witness. -/
def c3failGrid : List Nat → Except grib1.PErr (grib1.GridDescription × Nat) :=
  fun _ => .error .oobPanic

/-- A bitmap parser that fails on every input, for the skipped-state part of
the C3 witness. -/
def c3failBitmap : List Nat → Except grib1.PErr (grib1.Bitmap × Nat) :=
  fun _ => .error .oobPanic

/-- Witness for C3 on the concrete message `c3data` (both flag bits clear),
with the skipped parsers replaced by always-failing ones. -/
theorem C3_flag_gated_sections_witness :
    (c3msg.grid.isSome = true ↔ c3msg.product.section1Flags &&& 128 ≠ 0) ∧
    (c3msg.bitmap.isSome = true ↔ c3msg.product.section1Flags &&& 64 ≠ 0) ∧
    grib1.Read1Gen c3failGrid grib1.Bitmap.parseBytes c3data = grib1.Read1 c3data ∧
    grib1.Read1Gen grib1.GridDescription.parseBytes c3failBitmap c3data =
      grib1.Read1 c3data :=
  have h := C3_flag_gated_sections c3data c3msg 51 c3failGrid c3failBitmap
    (by decide)
  ⟨h.1, h.2.1, h.2.2.1 (by decide), h.2.2.2 (by decide)⟩
